import Mathlib

/-!
Verification development for the AvatarOS biometric-capture core.

The JavaScript source is shallowly embedded: numeric values are modelled
as rationals (ℚ), DOM/video handles as plain structures, nullable values
as `Option`, and the React effect/interval callbacks as explicit state
transition functions folded over tick/event lists.
-/

namespace AvatarOS

/-- Live video element handle: the fields of an HTMLVideoElement that the
capture core reads (`readyState`, `videoWidth`, `videoHeight`). -/
structure VideoEl where
  readyState : Nat
  videoWidth : ℚ
  videoHeight : ℚ
deriving DecidableEq

/-- Canvas 2D affine transform matrix, in canvas order
`[a c e; b d f]`: a point `(x, y)` maps to `(a*x + c*y + e, b*x + d*y + f)`. -/
structure Transform where
  a : ℚ
  b : ℚ
  c : ℚ
  d : ℚ
  e : ℚ
  f : ℚ
deriving DecidableEq

/-- Identity transform: the initial state of a fresh canvas context. -/
def Transform.ident : Transform := ⟨1, 0, 0, 1, 0, 0⟩

/-- Apply the transform to a point. -/
def Transform.apply (m : Transform) (p : ℚ × ℚ) : ℚ × ℚ :=
  (m.a * p.1 + m.c * p.2 + m.e, m.b * p.1 + m.d * p.2 + m.f)

/-- Canvas transform composition: `m.comp n` is the matrix obtained by
multiplying the current transform `m` on the right by `n`, which is what
`ctx.translate` / `ctx.scale` do to the current matrix. -/
def Transform.comp (m n : Transform) : Transform :=
  ⟨m.a * n.a + m.c * n.b,
   m.b * n.a + m.d * n.b,
   m.a * n.c + m.c * n.d,
   m.b * n.c + m.d * n.d,
   m.a * n.e + m.c * n.f + m.e,
   m.b * n.e + m.d * n.f + m.f⟩

/-- Model of `ctx.translate(x, y)`. -/
def Transform.translate (m : Transform) (x y : ℚ) : Transform :=
  m.comp ⟨1, 0, 0, 1, x, y⟩

/-- Model of `ctx.scale(sx, sy)`. -/
def Transform.scale (m : Transform) (sx sy : ℚ) : Transform :=
  m.comp ⟨sx, 0, 0, sy, 0, 0⟩

/-- Captured frame: a raster encode of the current video frame.  The model
records the canvas dimensions, the context transform in force when
`drawImage` ran, the encoding MIME type and the lossy quality factor that
`canvas.toDataURL('image/jpeg', quality)` received. -/
structure Frame where
  width : ℚ
  height : ℚ
  transform : Transform
  format : String
  quality : ℚ
deriving DecidableEq

/-- Embedding of `captureFrameFromVideo(videoElement, quality = 0.92)` from
`src/services/personaStorage.js` (lines 151-168).  A null / undefined
element is `none`; the guard `!videoElement || videoElement.readyState !== 4`
returns `null`.  Otherwise the canvas is sized to the video, the context is
mirrored via `translate(width, 0); scale(-1, 1)`, the frame is drawn and
encoded as JPEG at the requested quality. -/
def captureFrameFromVideo (videoElement : Option VideoEl) (quality : ℚ := 92/100) :
    Option Frame :=
  match videoElement with
  | none => none
  | some v =>
    if v.readyState ≠ 4 then none
    else
      let ctx := Transform.ident
      let ctx := ctx.translate v.videoWidth 0
      let ctx := ctx.scale (-1) 1
      some ⟨v.videoWidth, v.videoHeight, ctx, "image/jpeg", quality⟩

/-- BlazeFace prediction for one face, as consumed by the hook:
`topLeft`, `bottomRight` corner coordinates and the reported
`probability[0]`. -/
structure Face where
  topLeft : ℚ × ℚ
  bottomRight : ℚ × ℚ
  probability : ℚ
deriving DecidableEq

/-- Embedding of `checkFaceCentered(face, videoWidth, videoHeight)` from the
`useFaceDetection` hook (part_000 lines 697-726).  JS number literals 0.15,
0.05 and 0.4 are the rationals 15/100, 5/100 and 4/10. -/
def checkFaceCentered (face : Option Face) (videoWidth videoHeight : ℚ) : Bool :=
  match face with
  | none => false
  | some f =>
    let x1 := f.topLeft.1
    let y1 := f.topLeft.2
    let x2 := f.bottomRight.1
    let y2 := f.bottomRight.2
    let faceWidth := x2 - x1
    let faceHeight := y2 - y1
    let faceCenterX := x1 + faceWidth / 2
    let faceCenterY := y1 + faceHeight / 2
    let videoCenterX := videoWidth / 2
    let videoCenterY := videoHeight / 2
    let toleranceX := videoWidth * (15/100)
    let toleranceY := videoHeight * (15/100)
    let isCenteredX := decide (|faceCenterX - videoCenterX| < toleranceX)
    let isCenteredY := decide (|faceCenterY - videoCenterY| < toleranceY)
    let faceArea := faceWidth * faceHeight
    let videoArea := videoWidth * videoHeight
    let faceRatio := faceArea / videoArea
    let isProperSize := decide (faceRatio > 5/100) && decide (faceRatio < 4/10)
    isCenteredX && isCenteredY && isProperSize

/-- Bounding geometry stored in `faceData.position` on a successful
detection: `topLeft`, `bottomRight`, and the derived width/height. -/
structure FacePosition where
  topLeft : ℚ × ℚ
  bottomRight : ℚ × ℚ
  width : ℚ
  height : ℚ
deriving DecidableEq

/-- FaceObservation published by the hook through `setFaceData`. -/
structure FaceData where
  detected : Bool
  centered : Bool
  position : Option FacePosition
  confidence : ℚ
deriving DecidableEq

/-- Initial `faceData` state of the hook (part_000 lines 656-662), also
re-published wholesale when the prediction list is empty. -/
def initFaceData : FaceData :=
  ⟨false, false, none, 0⟩

/-- Outcome of one `model.estimateFaces` call inside `detectFace`: either a
prediction list, or a thrown model/runtime error (the `catch` branch). -/
inductive DetectOutcome
  | preds (faces : List Face)
  | err
deriving DecidableEq

/-- Embedding of the body of `detectFace` past its guards (part_000 lines
736-769): a non-empty prediction list publishes a fresh observation built
from the first face; an empty list publishes the all-false observation; a
thrown error is caught and logged, publishing nothing, so the previous
observation stays in force. -/
def detectStep (videoWidth videoHeight : ℚ) (st : FaceData) (o : DetectOutcome) :
    FaceData :=
  match o with
  | .preds [] => initFaceData
  | .preds (f :: _) =>
    { detected := true
      centered := checkFaceCentered (some f) videoWidth videoHeight
      position := some ⟨f.topLeft, f.bottomRight,
        f.bottomRight.1 - f.topLeft.1, f.bottomRight.2 - f.topLeft.2⟩
      confidence := f.probability }
  | .err => st

/-- State owned by one `useFaceDetection` hook instance: whether the
BlazeFace model resolved (`model` truthy, i.e. `isModelReady`), the
`isLoading` flag, the `error` state, and the current `faceData`. -/
structure DetectorState where
  modelReady : Bool
  isLoading : Bool
  loadError : Option String
  faceData : FaceData
deriving DecidableEq

/-- Hook state at mount: no model, loading, no error, all-false faceData. -/
def initDetector : DetectorState :=
  ⟨false, true, none, initFaceData⟩

/-- Embedding of the one-shot `loadModel` effect (part_000 lines 668-694):
it runs exactly once per hook lifetime (empty dependency list) and either
resolves the model or records the error message; there is no retry. -/
def applyLoadResult (st : DetectorState) (r : Except String Unit) : DetectorState :=
  match r with
  | .ok _ => { st with modelReady := true, isLoading := false }
  | .error msg => { st with loadError := some msg, isLoading := false }

/-- Inputs visible to one `detectFace` call: the guard reads the video ref,
the `isActive` flag and the video `readyState`; past the guards the call
runs one detection outcome against the current frame dimensions. -/
structure TickInput where
  videoPresent : Bool
  isActive : Bool
  readyState : Nat
  videoWidth : ℚ
  videoHeight : ℚ
  outcome : DetectOutcome
deriving DecidableEq

/-- Embedding of one `detectFace` invocation (part_000 lines 729-770)
including its guards: `if (!model || !videoRef?.current || !isActive) return;`
and `if (video.readyState !== 4) return;`.  A guarded-out call changes no
hook state. -/
def detectorTick (st : DetectorState) (i : TickInput) : DetectorState :=
  if st.modelReady = false ∨ i.videoPresent = false ∨ i.isActive = false then st
  else if i.readyState ≠ 4 then st
  else { st with faceData := detectStep i.videoWidth i.videoHeight st.faceData i.outcome }

/-- Total recording duration in ms: `phaseDuration * totalPhases`
(part_000 lines 116-118). -/
def totalDuration : ℚ := 2500 * 5

/-- Embedding of line 124: `Math.min((elapsed / totalDuration) * 100, 100)`. -/
def progressOf (elapsed : ℚ) : ℚ :=
  min (elapsed / totalDuration * 100) 100

/-- Embedding of line 125: `Math.floor((currentProgress / 100) * totalPhases)`.
No clamping is applied in the source. -/
def phaseOf (currentProgress : ℚ) : ℤ :=
  ⌊currentProgress / 100 * 5⌋

/-- State of one recording session inside the interval callback of the
recording/movement effect (part_000 lines 110-151): the `lastPhase` local,
the `frames` accumulator (each frame paired with the phase index at which it
was pushed), the two React state mirrors `progress` and `moveInstruction`,
whether the interval is still live, and every `onCapture` invocation with
the progress value current at that invocation. -/
structure RecSession where
  running : Bool
  lastPhase : ℤ
  frames : List (ℤ × Frame)
  progress : ℚ
  moveInstruction : ℤ
  completions : List (List (ℤ × Frame) × ℚ)
deriving DecidableEq

/-- Session state when `isRecording` flips on: `lastPhase = -1`, no frames,
interval live, no completion delivered yet. -/
def initSession : RecSession :=
  ⟨true, -1, [], 0, 0, []⟩

/-- Embedding of one interval tick (part_000 lines 122-148) at a given
elapsed time.  `video` is the value of `videoRef.current` (none when the
ref is empty).  The capture block runs when the computed phase differs from
`lastPhase` and the ref is non-null; a null frame from the sampler skips the
push but the source still executes `lastPhase = currentPhase` afterwards.
When progress reaches 100 the interval is cleared and `onCapture` fires with
the accumulated frames.  Ticks after the interval is cleared are no-ops. -/
def recTick (s : RecSession) (elapsed : ℚ) (video : Option VideoEl) : RecSession :=
  if s.running = false then s
  else
    let p := progressOf elapsed
    let ph := phaseOf p
    let s1 := { s with progress := p, moveInstruction := ph }
    let s2 :=
      if ph ≠ s1.lastPhase ∧ video.isSome then
        match captureFrameFromVideo video with
        | some fr => { s1 with frames := s1.frames ++ [(ph, fr)], lastPhase := ph }
        | none => { s1 with lastPhase := ph }
      else s1
    if 100 ≤ p then
      { s2 with running := false, completions := s2.completions ++ [(s2.frames, p)] }
    else s2

/-- Run a recording session over a list of (elapsed, video) tick inputs. -/
def runSession (ticks : List (ℚ × Option VideoEl)) : RecSession :=
  ticks.foldl (fun s t => recTick s t.1 t.2) initSession

/-- Video element that is fully decodable (readyState 4) at 640x480. -/
def readyVideo : VideoEl := ⟨4, 640, 480⟩

/-- Video element that has not buffered a decodable frame yet. -/
def unreadyVideo : VideoEl := ⟨0, 640, 480⟩

/-- Canonical 50ms tick schedule of the 12500ms session: elapsed times
50, 100, ..., 12500, with the video decodable at every tick. -/
def canonicalTicks : List (ℚ × Option VideoEl) :=
  (List.range 250).map (fun k => (((k : ℚ) + 1) * 50, some readyVideo))

/-- Recording session run to completion on the canonical schedule. -/
def runCanonical : RecSession := runSession canonicalTicks

/-- Detection phase of the coordinator: the `detectionState` string of
`CameraView` (part_000 line 32). -/
inductive DState
  | idle
  | initializing
  | scanning
  | detected
  | recording
deriving DecidableEq

/-- Dependency tuple of the auto-detection effect (part_000 line 107):
`[isVideo, autoStart, detectionState, hasStream, isModelReady,
faceData.detected, faceData.centered]`.  React re-runs the effect exactly
when this tuple changes between renders. -/
structure AutoDeps where
  isVideo : Bool
  autoStart : Bool
  detectionState : DState
  hasStream : Bool
  isModelReady : Bool
  fdDetected : Bool
  fdCentered : Bool
deriving DecidableEq

/-- Embedding of the auto-detection effect body (part_000 lines 81-103) run
at time `t` with dependency values `d`: returns the `setDetectionState`
value requested synchronously (if any) and the settle deadline of the
`setTimeout` scheduled by the `detected` branch (if any).  The three `if`
statements of the source are sequential but guard on mutually exclusive
`detectionState` values. -/
def effectBody (t : ℚ) (d : AutoDeps) : Option DState × Option ℚ :=
  if d.isVideo = false ∨ d.autoStart = false ∨ d.hasStream = false then (none, none)
  else if d.detectionState = .initializing ∧ d.isModelReady = true then
    (some .scanning, none)
  else if d.detectionState = .scanning ∧ d.fdDetected = true ∧ d.fdCentered = true then
    (some .detected, none)
  else if d.detectionState = .detected then
    (none, some (t + 1000))
  else (none, none)

/-- Runtime state of the auto-detection effect: the dependency tuple of the
last committed run (so a render with equal deps skips the effect), the
deadline of the currently pending settle `setTimeout` (none when no timeout
is pending — the cleanup `clearTimeout` cancels it), and the component state
it drives: `detectionState` and `isRecording`. -/
structure EffState where
  lastDeps : Option AutoDeps
  pending : Option ℚ
  dstate : DState
  isRecording : Bool
deriving DecidableEq

/-- Effect runtime at mount of an `autoStart` video `CameraView`:
`detectionState = "initializing"`, nothing pending, not recording. -/
def initEff : EffState :=
  ⟨none, none, .initializing, false⟩

/-- Events relevant to the settle timer: a render commit at time `t` with
dependency values `d`, or the passage of time up to `t` (at which the
pending `setTimeout`, if its deadline has arrived, fires and runs
`setDetectionState("recording"); setIsRecording(true)`). -/
inductive AutoEv
  | render (t : ℚ) (d : AutoDeps)
  | elapse (t : ℚ)
deriving DecidableEq

/-- React effect semantics for the auto-detection effect: a render whose
dependency tuple equals the last committed one does not re-run the effect
and leaves any pending timeout alive; a render with a changed tuple first
runs the cleanup (`clearTimeout(detectTimeout)`), then the body, which may
request a state transition and may schedule a fresh 1000ms timeout.
Time passage fires a pending timeout whose deadline has arrived. -/
def autoStep (st : EffState) (e : AutoEv) : EffState :=
  match e with
  | .render t d =>
    if st.lastDeps = some d then st
    else
      let body := effectBody t d
      { lastDeps := some d
        pending := body.2
        dstate := body.1.getD st.dstate
        isRecording := st.isRecording }
  | .elapse t =>
    match st.pending with
    | none => st
    | some deadline =>
      if deadline ≤ t then
        { st with pending := none, dstate := .recording, isRecording := true }
      else st

/-- Run the auto-detection effect machine over an event trace. -/
def runAuto (evs : List AutoEv) : EffState :=
  evs.foldl autoStep initEff

/-- Face used in concrete session runs: box (220,140)-(420,340) in a
640x480 frame, centered exactly on the frame center with area ratio
40000/307200. -/
def centeredFace : Face := ⟨(220, 140), (420, 340), 9/10⟩

/-!
## Theorems

The claim theorems below settle the frozen claims against the embedding.
-/

set_option maxRecDepth 200000

/-- C10: `captureFrameFromVideo` is total at its public boundary: a null or
undefined video element (modelled as `none`) yields `null` rather than a
thrown error.  Totality for every other input is inherent in the embedding
being a total Lean function whose null-guard is the first statement of the
source. -/
theorem claim10_null_source_total (q : ℚ) :
    captureFrameFromVideo none q = none := rfl

/-- C6: `captureFrameFromVideo(videoElement, quality = 0.92)` returns null
iff the source is absent or not fully decodable (`readyState ≠ 4`);
otherwise it returns a frame sized to the video, encoded as JPEG at the
requested quality, whose context transform is the horizontal mirror
`(x, y) ↦ (width - x, y)`; and the quality parameter defaults to 0.92. -/
theorem claim6_capture_contract (v : Option VideoEl) (q : ℚ) :
    (captureFrameFromVideo v q = none ↔ ∀ el, v = some el → el.readyState ≠ 4) ∧
    (∀ el, v = some el → el.readyState = 4 →
      ∃ fr, captureFrameFromVideo v q = some fr ∧
        fr.width = el.videoWidth ∧ fr.height = el.videoHeight ∧
        fr.format = "image/jpeg" ∧ fr.quality = q ∧
        ∀ p : ℚ × ℚ, fr.transform.apply p = (el.videoWidth - p.1, p.2)) ∧
    captureFrameFromVideo v = captureFrameFromVideo v (92/100) := by
  refine ⟨?_, ?_, rfl⟩
  · cases v with
    | none => simp [captureFrameFromVideo]
    | some el =>
      simp only [captureFrameFromVideo]
      constructor
      · intro hnone el' hel
        cases hel
        intro h4
        rw [if_neg (by simp [h4])] at hnone
        exact Option.some_ne_none _ hnone
      · intro hall
        rw [if_pos (hall el rfl)]
  · intro el hel h4
    cases hel
    refine ⟨⟨el.videoWidth, el.videoHeight,
      (Transform.ident.translate el.videoWidth 0).scale (-1) 1, "image/jpeg", q⟩,
      ?_, rfl, rfl, rfl, rfl, ?_⟩
    · simp [captureFrameFromVideo, h4]
    · intro p
      simp only [Transform.apply, Transform.ident, Transform.translate, Transform.scale,
        Transform.comp]
      rw [Prod.mk.injEq]
      constructor <;> ring

/-- C6 witness: a decodable 640x480 element at quality 1/2 yields a frame,
and its transform mirrors the point (10, 20) to (630, 20). -/
theorem claim6_capture_contract_witness :
    ∃ fr, captureFrameFromVideo (some readyVideo) (1/2) = some fr ∧
      fr.width = readyVideo.videoWidth ∧ fr.height = readyVideo.videoHeight ∧
      fr.format = "image/jpeg" ∧ fr.quality = 1/2 ∧
      ∀ p : ℚ × ℚ, fr.transform.apply p = (readyVideo.videoWidth - p.1, p.2) :=
  (claim6_capture_contract (some readyVideo) (1/2)).2.1 readyVideo rfl rfl

/-- C3: a face is classified centered iff the horizontal and vertical
offsets of its box center from the frame center are strictly within 15% of
the frame dimensions and the box-to-frame area ratio lies strictly between
5/100 and 4/10; at each exact boundary the classification is deterministic
and falls on the not-centered side (the source uses strict comparisons). -/
theorem claim3_centered_iff (x1 y1 x2 y2 pr w h : ℚ) (_hw : 0 < w) (_hh : 0 < h) :
    (checkFaceCentered (some ⟨(x1, y1), (x2, y2), pr⟩) w h = true ↔
      (|x1 + (x2 - x1) / 2 - w / 2| < w * (15/100) ∧
       |y1 + (y2 - y1) / 2 - h / 2| < h * (15/100) ∧
       5/100 < (x2 - x1) * (y2 - y1) / (w * h) ∧
       (x2 - x1) * (y2 - y1) / (w * h) < 4/10)) ∧
    (|x1 + (x2 - x1) / 2 - w / 2| = w * (15/100) →
      checkFaceCentered (some ⟨(x1, y1), (x2, y2), pr⟩) w h = false) ∧
    (|y1 + (y2 - y1) / 2 - h / 2| = h * (15/100) →
      checkFaceCentered (some ⟨(x1, y1), (x2, y2), pr⟩) w h = false) ∧
    ((x2 - x1) * (y2 - y1) / (w * h) = 5/100 →
      checkFaceCentered (some ⟨(x1, y1), (x2, y2), pr⟩) w h = false) ∧
    ((x2 - x1) * (y2 - y1) / (w * h) = 4/10 →
      checkFaceCentered (some ⟨(x1, y1), (x2, y2), pr⟩) w h = false) := by
  have main : checkFaceCentered (some ⟨(x1, y1), (x2, y2), pr⟩) w h = true ↔
      (|x1 + (x2 - x1) / 2 - w / 2| < w * (15/100) ∧
       |y1 + (y2 - y1) / 2 - h / 2| < h * (15/100) ∧
       5/100 < (x2 - x1) * (y2 - y1) / (w * h) ∧
       (x2 - x1) * (y2 - y1) / (w * h) < 4/10) := by
    simp [checkFaceCentered, Bool.and_eq_true, decide_eq_true_eq, and_assoc, gt_iff_lt]
  refine ⟨main, ?_, ?_, ?_, ?_⟩
  all_goals
    intro hb
    rw [Bool.eq_false_iff]
    intro htrue
    have hc := main.mp htrue
  · rw [hb] at hc
    exact lt_irrefl _ hc.1
  · rw [hb] at hc
    exact lt_irrefl _ hc.2.1
  · rw [hb] at hc
    exact lt_irrefl _ hc.2.2.1
  · rw [hb] at hc
    exact lt_irrefl _ hc.2.2.2

/-- C3 witness: a 200x200 face box centered exactly on a 640x480 frame is
classified centered, via the iff at that concrete geometry. -/
theorem claim3_centered_iff_witness :
    (0:ℚ) < 640 ∧ (0:ℚ) < 480 ∧
      checkFaceCentered (some ⟨(220, 140), (420, 340), 9/10⟩) 640 480 = true :=
  ⟨by norm_num, by norm_num,
    (claim3_centered_iff 220 140 420 340 (9/10) 640 480 (by norm_num) (by norm_num)).1.mpr
      (by norm_num)⟩

/-- Publishing one outcome preserves the invariant that only a detected
observation can be centered. -/
theorem detectStep_centered_imp (w h : ℚ) (fd : FaceData) (o : DetectOutcome)
    (hinv : fd.centered = true → fd.detected = true) :
    (detectStep w h fd o).centered = true → (detectStep w h fd o).detected = true := by
  cases o with
  | preds faces =>
    cases faces with
    | nil => intro hc; cases hc
    | cons f rest => intro _; rfl
  | err => exact hinv

/-- One guarded `detectFace` call preserves the centered-implies-detected
invariant of the hook state. -/
theorem detectorTick_centered_imp (st : DetectorState) (i : TickInput)
    (hinv : st.faceData.centered = true → st.faceData.detected = true) :
    (detectorTick st i).faceData.centered = true →
      (detectorTick st i).faceData.detected = true := by
  unfold detectorTick
  split
  · exact hinv
  · split
    · exact hinv
    · exact detectStep_centered_imp i.videoWidth i.videoHeight st.faceData i.outcome hinv

/-- Folding any tick list preserves the centered-implies-detected invariant. -/
theorem foldl_detectorTick_centered_imp (ticks : List TickInput) (st : DetectorState)
    (hinv : st.faceData.centered = true → st.faceData.detected = true) :
    (ticks.foldl detectorTick st).faceData.centered = true →
      (ticks.foldl detectorTick st).faceData.detected = true := by
  induction ticks generalizing st with
  | nil => exact hinv
  | cons i rest ih =>
    exact ih (detectorTick st i) (detectorTick_centered_imp st i hinv)

/-- C4: every observation the hook publishes satisfies centered ⇒ detected.
For any model-load result and any sequence of detection ticks — non-empty
prediction lists, empty lists, or thrown errors — the resulting `faceData`
never has `centered = true` with `detected = false`. -/
theorem claim4_centered_implies_detected (load : Except String Unit)
    (ticks : List TickInput)
    (hc : (ticks.foldl detectorTick (applyLoadResult initDetector load)).faceData.centered
      = true) :
    (ticks.foldl detectorTick (applyLoadResult initDetector load)).faceData.detected
      = true := by
  refine foldl_detectorTick_centered_imp ticks (applyLoadResult initDetector load) ?_ hc
  cases load with
  | ok u => intro hfalse; cases hfalse
  | error msg => intro hfalse; cases hfalse

/-- C4 witness: after a successful load and one tick with a centered face,
the published observation has centered = true, and the claim theorem gives
detected = true there. -/
theorem claim4_centered_implies_detected_witness :
    (([⟨true, true, 4, 640, 480, .preds [centeredFace]⟩] :
        List TickInput).foldl detectorTick
        (applyLoadResult initDetector (.ok ()))).faceData.centered = true ∧
    (([⟨true, true, 4, 640, 480, .preds [centeredFace]⟩] :
        List TickInput).foldl detectorTick
        (applyLoadResult initDetector (.ok ()))).faceData.detected = true := by
  have hc : (([⟨true, true, 4, 640, 480, .preds [centeredFace]⟩] :
      List TickInput).foldl detectorTick
      (applyLoadResult initDetector (.ok ()))).faceData.centered = true := by
    with_unfolding_all decide
  exact ⟨hc, claim4_centered_implies_detected (.ok ())
    [⟨true, true, 4, 640, 480, .preds [centeredFace]⟩] hc⟩

/-- C7 counterexample: a detection error does not publish a fresh
observation with `detected = false`; it leaves the previous observation in
force.  After a successful detection of `centeredFace` the error tick still
reports `detected = true`, refuting the claim that the published
observation for the error tick has `detected = false`. -/
theorem claim7_counterexample :
    (detectStep 640 480 (detectStep 640 480 initFaceData (.preds [centeredFace]))
        .err).detected = true ∧
    detectStep 640 480 (detectStep 640 480 initFaceData (.preds [centeredFace])) .err
      = detectStep 640 480 initFaceData (.preds [centeredFace]) := by
  constructor
  · rfl
  · rfl

/-- C7 amended: a thrown detection pass is caught and logged, publishes no
new observation (the previously published `faceData` remains in force
unchanged — it is not reset to `detected = false`), leaves the rest of the
hook state untouched, and the polling loop continues: folding the remaining
outcomes proceeds exactly as if the error tick had not occurred. -/
theorem claim7_error_swallowed (w h : ℚ) (fd : FaceData) (rest : List DetectOutcome)
    (st : DetectorState) (vp act : Bool) (rs : Nat) :
    detectStep w h fd .err = fd ∧
    List.foldl (detectStep w h) fd (.err :: rest) = List.foldl (detectStep w h) fd rest ∧
    detectorTick st ⟨vp, act, rs, w, h, .err⟩ = st := by
  refine ⟨rfl, rfl, ?_⟩
  unfold detectorTick
  split
  · rfl
  · split
    · rfl
    · rfl

/-- Tick calls are no-ops while the model is not ready: the guard
`if (!model || ...) return;` rejects every call. -/
theorem foldl_detectorTick_notReady (ticks : List TickInput) (st : DetectorState)
    (hnr : st.modelReady = false) :
    ticks.foldl detectorTick st = st := by
  induction ticks generalizing st with
  | nil => rfl
  | cons i rest ih =>
    have hstep : detectorTick st i = st := by
      unfold detectorTick
      rw [if_pos (Or.inl hnr)]
    rw [List.foldl_cons, hstep]
    exact ih st hnr

/-- C8: while the model is not ready — still loading, or failed to load —
every observation call is a no-op, so the hook keeps reporting the initial
observation with `detected = false` and `centered = false`.  A failed load
records the error message, and since no tick ever sets the model, the hook
stays not-ready for its whole lifetime (the load effect runs exactly once,
so there is no retry). -/
theorem claim8_model_not_ready (msg : String) (ticks loadingTicks : List TickInput) :
    (ticks.foldl detectorTick (applyLoadResult initDetector (.error msg))).modelReady
      = false ∧
    (ticks.foldl detectorTick (applyLoadResult initDetector (.error msg))).loadError
      = some msg ∧
    (ticks.foldl detectorTick (applyLoadResult initDetector (.error msg))).faceData
      = initFaceData ∧
    (loadingTicks.foldl detectorTick initDetector).modelReady = false ∧
    (loadingTicks.foldl detectorTick initDetector).faceData = initFaceData := by
  have hfail : ticks.foldl detectorTick (applyLoadResult initDetector (.error msg))
      = applyLoadResult initDetector (.error msg) :=
    foldl_detectorTick_notReady ticks _ rfl
  have hload : loadingTicks.foldl detectorTick initDetector = initDetector :=
    foldl_detectorTick_notReady loadingTicks _ rfl
  rw [hfail, hload]
  exact ⟨rfl, rfl, rfl, rfl, rfl⟩

/-- C1 counterexample: on the canonical 50ms schedule with the source
decodable at every tick, the completion callback fires exactly once, with
progress 100, but the delivered frame sequence has SIX frames — captured at
computed phase indices 0,1,2,3,4,5 — not five.  The tick at elapsed 12500ms
computes progress 100 and phase index `floor(100/100*5) = 5 ≠ 4`, so the
capture block runs one extra time before the completion branch. -/
theorem claim1_counterexample :
    runCanonical.completions.map (fun c => (c.1.map Prod.fst, c.2))
      = [([0, 1, 2, 3, 4, 5], 100)] ∧
    ¬ runCanonical.completions.map (fun c => c.1.length) = [5] := by
  have ha : runCanonical.completions.map (fun c => (c.1.map Prod.fst, c.2))
      = [([0, 1, 2, 3, 4, 5], 100)] := by
    with_unfolding_all decide
  have hb : runCanonical.completions.map (fun c => c.1.length) = [6] := by
    with_unfolding_all decide
  refine ⟨ha, ?_⟩
  rw [hb]
  decide

/-- C1 amended: on the canonical 50ms schedule with the source decodable at
every tick, the session captures six frames, one at each computed phase
index 0 through 5 (one per motion phase 0-4 plus one more at the completion
tick, where the unclamped phase index is 5), in strictly increasing phase
order, and delivers them through the completion callback exactly once with
progress equal to 100. -/
theorem claim1_session_frames :
    runCanonical.frames.map Prod.fst = [0, 1, 2, 3, 4, 5] ∧
    List.Chain' (· < ·) (runCanonical.frames.map Prod.fst) ∧
    runCanonical.completions.map (fun c => c.1.map Prod.fst) = [[0, 1, 2, 3, 4, 5]] ∧
    runCanonical.completions.length = 1 ∧
    runCanonical.progress = 100 := by
  have h1 : runCanonical.frames.map Prod.fst = [0, 1, 2, 3, 4, 5] := by
    with_unfolding_all decide
  have h3 : runCanonical.completions.map (fun c => c.1.map Prod.fst)
      = [[0, 1, 2, 3, 4, 5]] := by
    with_unfolding_all decide
  have h4 : runCanonical.completions.length = 1 := by
    with_unfolding_all decide
  have h5 : runCanonical.progress = 100 := by
    with_unfolding_all decide
  exact ⟨h1, by rw [h1]; norm_num [List.chain'_cons], h3, h4, h5⟩

/-- C2 counterexample: the phase index is not clamped to [0,4].  At elapsed
12500ms the progress is 100 and the computed phase index is 5, and on the
canonical run the capture block does use phase index 5: the delivered
sequence contains a frame captured at phase 5. -/
theorem claim2_counterexample :
    phaseOf (progressOf 12500) = 5 ∧
    ¬ phaseOf (progressOf 12500) ≤ 4 ∧
    (5 : ℤ) ∈ runCanonical.frames.map Prod.fst := by
  have hm : runCanonical.frames.map Prod.fst = [0, 1, 2, 3, 4, 5] := by
    with_unfolding_all decide
  have hp : phaseOf (progressOf 12500) = 5 := by
    with_unfolding_all decide
  refine ⟨hp, ?_, ?_⟩
  · rw [hp]
    decide
  · rw [hm]
    decide

/-- C2 amended: every tick computes
`progressPercent = min(elapsed/total * 100, 100)` and
`currentPhaseIndex = floor(progress/100 * 5)` with NO clamping: for elapsed
below 12500ms the phase index equals `floor(elapsed/2500)` and lies in
[0,4], while for elapsed at or beyond 12500ms the progress is exactly 100
and the phase index used for frame capture is 5. -/
theorem claim2_phase_formula (e : ℚ) (he : 0 ≤ e) :
    progressOf e = min (e / totalDuration * 100) 100 ∧
    (e < 12500 →
      phaseOf (progressOf e) = ⌊e / 2500⌋ ∧
      0 ≤ phaseOf (progressOf e) ∧ phaseOf (progressOf e) ≤ 4) ∧
    (12500 ≤ e → progressOf e = 100 ∧ phaseOf (progressOf e) = 5) := by
  have harg : e / totalDuration * 100 = e / 125 := by
    unfold totalDuration
    ring
  refine ⟨rfl, ?_, ?_⟩
  · intro hlt
    have hprog : progressOf e = e / 125 := by
      unfold progressOf
      rw [harg]
      exact min_eq_left ((div_le_iff (by norm_num)).mpr (by linarith))
    have hphase : phaseOf (e / 125) = ⌊e / 2500⌋ := by
      unfold phaseOf
      congr 1
      ring
    rw [hprog, hphase]
    refine ⟨rfl, Int.floor_nonneg.mpr (by positivity), ?_⟩
    have hlt5 : ⌊e / 2500⌋ < 5 := by
      refine Int.floor_lt.mpr ?_
      push_cast
      rw [div_lt_iff (by norm_num)]
      linarith
    omega
  · intro hge
    have hprog : progressOf e = 100 := by
      unfold progressOf
      rw [harg]
      exact min_eq_right ((le_div_iff (by norm_num)).mpr (by linarith))
    refine ⟨hprog, ?_⟩
    rw [hprog]
    with_unfolding_all decide

/-- C2 amended witness: at elapsed exactly 12500ms the progress is 100 and
the computed phase index is 5. -/
theorem claim2_phase_formula_witness :
    (0:ℚ) ≤ 12500 ∧ progressOf 12500 = 100 ∧ phaseOf (progressOf 12500) = 5 :=
  ⟨by norm_num, (claim2_phase_formula 12500 (by norm_num)).2.2 (by norm_num)⟩

/-- First 49 canonical ticks: elapsed 50..2450ms, source decodable. -/
def preNullTicks : List (ℚ × Option VideoEl) :=
  (List.range 49).map (fun k => (((k : ℚ) + 1) * 50, some readyVideo))

/-- Session state just before the 2500ms phase boundary: phase 0 frame
captured, `lastPhase = 0`. -/
def preNull : RecSession := runSession preNullTicks

/-- Canonical schedule except that the source is not decodable at the
2500ms tick (the phase 0 → 1 boundary) and decodable everywhere else. -/
def droppedTicks : List (ℚ × Option VideoEl) :=
  (List.range 250).map (fun k =>
    (((k : ℚ) + 1) * 50, if k = 49 then some unreadyVideo else some readyVideo))

/-- C5 counterexample: when the sampler returns null at a phase boundary
the source still executes `lastPhase = currentPhase`, so the last-seen
phase index IS advanced (0 to 1 here) with no frame pushed, and on the full
run the phase 1 frame is never captured by a subsequent tick: the delivered
phases are [0, 2, 3, 4, 5]. -/
theorem claim5_counterexample :
    preNull.lastPhase = 0 ∧
    (recTick preNull 2500 (some unreadyVideo)).lastPhase = 1 ∧
    (recTick preNull 2500 (some unreadyVideo)).frames = preNull.frames ∧
    (runSession droppedTicks).frames.map Prod.fst = [0, 2, 3, 4, 5] := by
  refine ⟨?_, ?_, ?_, ?_⟩ <;> with_unfolding_all decide

/-- C5 amended: on a tick where the computed phase differs from the
last-seen phase and the sampler returns null (source present but not
decodable), the capture is skipped — no frame is appended, no completion is
delivered, the interval stays live — but the last-seen phase index is
advanced to the current phase, so the skipped phase's frame is NOT retried
on subsequent ticks. -/
theorem claim5_null_frame_skips_phase (s : RecSession) (e : ℚ) (v : Option VideoEl)
    (hrun : s.running = true)
    (hv : v.isSome = true)
    (hnull : captureFrameFromVideo v = none)
    (hph : phaseOf (progressOf e) ≠ s.lastPhase)
    (hp : progressOf e < 100) :
    (recTick s e v).lastPhase = phaseOf (progressOf e) ∧
    (recTick s e v).frames = s.frames ∧
    (recTick s e v).completions = s.completions ∧
    (recTick s e v).running = true := by
  have hp' : ¬ (100 ≤ progressOf e) := not_le.mpr hp
  simp [recTick, hrun, hv, hnull, hph, hp']

/-- C5 amended witness: the reachable pre-boundary state `preNull` with a
non-decodable source at elapsed 2500ms advances `lastPhase` to 1 while
leaving frames, completions and the interval untouched. -/
theorem claim5_null_frame_skips_phase_witness :
    preNull.running = true ∧
    (some unreadyVideo).isSome = true ∧
    captureFrameFromVideo (some unreadyVideo) = none ∧
    phaseOf (progressOf 2500) ≠ preNull.lastPhase ∧
    progressOf 2500 < 100 ∧
    (recTick preNull 2500 (some unreadyVideo)).lastPhase = phaseOf (progressOf 2500) ∧
    (recTick preNull 2500 (some unreadyVideo)).frames = preNull.frames ∧
    (recTick preNull 2500 (some unreadyVideo)).completions = preNull.completions ∧
    (recTick preNull 2500 (some unreadyVideo)).running = true := by
  have h1 : preNull.running = true := by with_unfolding_all decide
  have h4 : phaseOf (progressOf 2500) ≠ preNull.lastPhase := by with_unfolding_all decide
  have h5 : progressOf 2500 < 100 := by with_unfolding_all decide
  have hmain := claim5_null_frame_skips_phase preNull 2500 (some unreadyVideo) h1 rfl rfl h4 h5
  exact ⟨h1, rfl, rfl, h4, h5, hmain.1, hmain.2.1, hmain.2.2.1, hmain.2.2.2⟩

/-- Dependency values at mount of the auto video view: state
`initializing`, model ready, no face yet. -/
def depsInit : AutoDeps := ⟨true, true, .initializing, true, true, false, false⟩

/-- Dependency values while scanning with a detected, centered face. -/
def depsScan : AutoDeps := ⟨true, true, .scanning, true, true, true, true⟩

/-- Dependency values after entering `detected` with the face still
detected and centered. -/
def depsDet : AutoDeps := ⟨true, true, .detected, true, true, true, true⟩

/-- Dependency values with the state still `detected` but the detector
flag `faceData.detected` flipped to false (a detection flicker). -/
def depsDetFlicker : AutoDeps := ⟨true, true, .detected, true, true, false, true⟩

/-- Event trace in which the state enters `detected` at time 0 and stays
`detected` through time 1000, but the detector's `detected` flag flips at
time 500. -/
def flickerTrace : List AutoEv :=
  [.render 0 depsInit, .render 0 depsScan, .render 0 depsDet,
   .render 500 depsDetFlicker, .elapse 1000]

/-- C9 counterexample: the settle timer IS restarted while the state stays
`detected`.  The state enters `detected` at time 0 (timer armed for 1000)
and remains `detected` uninterrupted through time 1000, yet the render at
time 500 — whose only change is the detector flag `faceData.detected`, a
dependency of the effect — clears and re-arms the timeout for 1500, so at
time 1000 the coordinator has not transitioned to `recording`. -/
theorem claim9_counterexample :
    runAuto [.render 0 depsInit, .render 0 depsScan, .render 0 depsDet] =
      ⟨some depsDet, some 1000, .detected, false⟩ ∧
    runAuto flickerTrace = ⟨some depsDetFlicker, some 1500, .detected, false⟩ ∧
    (runAuto flickerTrace).dstate ≠ .recording := by
  refine ⟨?_, ?_, ?_⟩ <;> with_unfolding_all decide

/-- C9 amended: when the effect re-runs in the `detected` state — at entry
into `detected`, or on ANY later change of an effect dependency (including
the detector's detected/centered flags) while the state stays `detected` —
the pending settle timeout is cleared and re-armed for 1000ms from that
moment, without re-validating centering or changing the state; the timeout
fires once its deadline passes, transitioning to `recording`; and a render
whose dependency tuple is unchanged does not re-run the effect, leaving the
pending timer untouched. -/
theorem claim9_settle_timer :
    (∀ (st : EffState) (t : ℚ) (d : AutoDeps),
      d.isVideo = true → d.autoStart = true → d.hasStream = true →
      d.detectionState = .detected → st.lastDeps ≠ some d →
      autoStep st (.render t d)
        = ⟨some d, some (t + 1000), st.dstate, st.isRecording⟩) ∧
    (∀ (st : EffState) (t deadline : ℚ),
      st.pending = some deadline → deadline ≤ t →
      (autoStep st (.elapse t)).dstate = .recording ∧
      (autoStep st (.elapse t)).isRecording = true ∧
      (autoStep st (.elapse t)).pending = none) ∧
    (∀ (st : EffState) (t : ℚ) (d : AutoDeps),
      st.lastDeps = some d → autoStep st (.render t d) = st) := by
  refine ⟨?_, ?_, ?_⟩
  · intro st t d hv ha hs hd hne
    simp [autoStep, hne, effectBody, hv, ha, hs, hd]
  · intro st t deadline hp hle
    simp [autoStep, hp, hle]
  · intro st t d heq
    simp [autoStep, heq]

/-- C9 amended witness: a dep-changing render in `detected` at time 0 arms
the timer for 1000; a pending timer whose deadline has passed fires into
`recording`; a dep-equal render leaves the state untouched. -/
theorem claim9_settle_timer_witness :
    initEff.lastDeps ≠ some depsDet ∧
    autoStep initEff (.render 0 depsDet)
      = ⟨some depsDet, some (0 + 1000), initEff.dstate, initEff.isRecording⟩ ∧
    (autoStep ⟨some depsDet, some 1000, .detected, false⟩ (.elapse 1000)).dstate
      = .recording ∧
    autoStep ⟨some depsDet, some 1000, .detected, false⟩ (.render 500 depsDet)
      = ⟨some depsDet, some 1000, .detected, false⟩ :=
  ⟨by decide,
   claim9_settle_timer.1 initEff 0 depsDet rfl rfl rfl rfl (by decide),
   (claim9_settle_timer.2.1 ⟨some depsDet, some 1000, .detected, false⟩ 1000 1000 rfl
     (by decide)).1,
   claim9_settle_timer.2.2 ⟨some depsDet, some 1000, .detected, false⟩ 500 depsDet rfl⟩

end AvatarOS
